import Mathlib

/-!
Shallow embedding of the approach-app server core (hugoflying/approach-app).

The repository ships several historical variants of the same server concatenated
in its source files.  The embedding below follows the most refined variant — the
second document of `src/unnamed/part_000` (lines 166-439): it is the only one
with the three-map store {alerts, acked, landed}, the `fetchWithRetry` backoff
helper and the `fetchTraffic` primary/fallback orchestrator.  Where a claim
cites another variant (the bearing-gate classifier and `first_seen` record of
`src/server/index.js`, the ACK handler of `src/unnamed/part_001`), that variant
is embedded separately under an `Idx`-prefixed or otherwise distinct name.

Numbers are modelled as exact rationals (ℚ).  The floating-point haversine
distance (`haversineKm`, pure trigonometry over the snapshot's lat/lon and the
fixed airport reference) is not re-derived; wherever the source computes
`d_km = haversineKm(ac.lat, ac.lon, AIRPORT.lat, AIRPORT.lon)` the embedding
takes `d_km` as an explicit parameter universally quantified in the theorems,
so every realizable distance is covered.  Likewise `bearingDeg` for the
`index.js` variant.  Timestamps (`Date.now()`) are ℕ milliseconds passed in
explicitly.
-/

/-- JavaScript number truncation toward zero, on exact rationals
(`Math.trunc` semantics, the rounding used by the `%` operator). -/
def qTrunc (q : ℚ) : ℤ := if 0 ≤ q then ⌊q⌋ else ⌈q⌉

/-- JavaScript remainder `a % b`: `a - b * trunc(a / b)` (sign follows the
dividend), from the uses of `%` in `angDiff`. -/
def jsMod (a b : ℚ) : ℚ := a - b * (qTrunc (a / b) : ℚ)

/-- `Math.abs` on exact rationals. -/
def jsAbs (q : ℚ) : ℚ := if q < 0 then -q else q

/-- `src/unnamed/part_000` line 178:
`const angDiff = (a, b) => Math.abs((((a - b) % 360) + 540) % 360 - 180);` -/
def angDiff (a b : ℚ) : ℚ := jsAbs (jsMod (jsMod (a - b) 360 + 540) 360 - 180)

/-- `src/server/config.js` (second document): runway headings 12/30. -/
def RUNWAY_HEADINGS : List ℚ := [123, 303]

/-- `src/server/config.js` (second document): `RUNWAY_TOL = 20` (±20°). -/
def RUNWAY_TOL : ℚ := 20

namespace CFG

/-- `CFG.RADIUS_KM = 80` from `src/server/config.js`. -/
def RADIUS_KM : ℚ := 80

/-- `CFG.ALT_MAX_FT = 10000` from `src/server/config.js`. -/
def ALT_MAX_FT : ℚ := 10000

/-- `CFG.ETA_MAX_MIN = 25` from `src/server/config.js`. -/
def ETA_MAX_MIN : ℚ := 25

/-- `CFG.BEARING_MAX_DEG = 35` from `src/server/config.js`
(used only by the `src/server/index.js` variant's classifier). -/
def BEARING_MAX_DEG : ℚ := 35

end CFG

/-- A normalized aircraft snapshot as produced by the source adapters
(`fetchOpenSky` / `fetchADSBxRapid` / `simulateSwarm`): nullable kinematic
fields are `Option ℚ`, identity hints are `Option String`.  The lat/lon pair
only ever feeds `haversineKm`/`bearingDeg`, which the embedding replaces by
explicit `d_km`/`brg` parameters (see the file header), so position is not a
field here. -/
structure Snapshot where
  hex : Option String
  callsign : Option String
  alt_ft : Option ℚ
  gs_kts : Option ℚ
  track_deg : Option ℚ
  vs_fpm : Option ℚ
  deriving DecidableEq

/-- `src/unnamed/part_000` lines 209-213:
`const isAlignedRunway = (track, d_km) => { if (track == null || d_km > 30)
return true; return RUNWAY_HEADINGS.some(hdg => angDiff(track, hdg) <=
RUNWAY_TOL); };` -/
def isAlignedRunway (track : Option ℚ) (d_km : ℚ) : Bool :=
  match track with
  | none => true
  | some t =>
    if d_km > 30 then true
    else RUNWAY_HEADINGS.any fun hdg => decide (angDiff t hdg ≤ RUNWAY_TOL)

/-- `src/unnamed/part_000` lines 215-226 (`isApproach`), with `d_km` standing
for the haversine distance computed at line 216. -/
def isApproach (d_km : ℚ) (ac : Snapshot) : Bool :=
  if d_km > CFG.RADIUS_KM then false
  else match ac.alt_ft with
  | none => false
  | some alt =>
    if alt > CFG.ALT_MAX_FT then false
    else if (match ac.vs_fpm with | some v => decide (v > 0) | none => false) then false
    else if !isAlignedRunway ac.track_deg d_km then false
    else match ac.gs_kts with
      | none => true
      | some g =>
        if g > 20 then
          if (d_km / (g * (1.852 : ℚ))) * 60 > CFG.ETA_MAX_MIN then false else true
        else true

/-- The landing detector, `src/unnamed/part_000` line 376:
`ac.alt_ft != null && ac.alt_ft < 200 && ac.gs_kts != null && ac.gs_kts < 50`. -/
def landedDetect (ac : Snapshot) : Bool :=
  match ac.alt_ft, ac.gs_kts with
  | some alt, some gs => decide (alt < 200) && decide (gs < 50)
  | _, _ => false

/-- Alerting record, `state.alerts.set(key, { snapshot: ac })`
(`src/unnamed/part_000` line 386). -/
structure AlertRec where
  snapshot : Snapshot
  deriving DecidableEq

/-- Acknowledged record, `state.acked.set(msg.key, { acked_at: Date.now(),
snapshot: ac })` (`src/unnamed/part_001` line 117). -/
structure AckedRec where
  acked_at : ℕ
  snapshot : Snapshot
  deriving DecidableEq

/-- Landed record, `state.landed.set(key, { landed_at: Date.now(),
snapshot: ac })` (`src/unnamed/part_000` line 379). -/
structure LandedRec where
  landed_at : ℕ
  snapshot : Snapshot
  deriving DecidableEq

/-- The three in-memory maps, `const state = { alerts: new Map(), acked:
new Map(), landed: new Map() }` (`src/unnamed/part_000` lines 167-171), each
modelled as a total lookup function. -/
structure ServerState where
  alerts : String → Option AlertRec
  acked : String → Option AckedRec
  landed : String → Option LandedRec

/-- `Map.set` on the lookup-function model. -/
def mapSet {α : Type} (m : String → Option α) (k : String) (v : α) :
    String → Option α :=
  fun q => if q = k then some v else m q

/-- `Map.delete` on the lookup-function model. -/
def mapRemove {α : Type} (m : String → Option α) (k : String) :
    String → Option α :=
  fun q => if q = k then none else m q

/-- Events the server broadcasts or unicasts: `APPROACH_ALERT`, `LANDED`
(each carrying key, callsign, hex) and `ACK_OK` (key only).  The `index.js`
variant additionally attaches `distance_km`/`eta_min` payload fields to its
alert message; no claim concerns them and they are not modelled. -/
inductive Event where
  | approachAlert (key : String) (callsign hex : Option String)
  | landed (key : String) (callsign hex : Option String)
  | ackOk (key : String)
  deriving DecidableEq

/-- One iteration of the per-snapshot body of `poll`, `src/unnamed/part_000`
lines 372-390: the landing detector runs first and `continue`s; otherwise an
approaching snapshot whose key is in neither `acked` nor `landed` is inserted
into `alerts` and an APPROACH_ALERT is broadcast.  `now` is `Date.now()`,
`key` is `flightKey(ac)` (hex, else callsign, else a random fallback — the
derivation is irrelevant to the claims, which quantify over keys), `d_km` is
the haversine distance used by `isApproach`. -/
def observe (now : ℕ) (key : String) (ac : Snapshot) (d_km : ℚ)
    (st : ServerState) : ServerState × List Event :=
  if landedDetect ac then
    ({ alerts := mapRemove st.alerts key
       acked := mapRemove st.acked key
       landed := mapSet st.landed key ⟨now, ac⟩ },
     [Event.landed key ac.callsign ac.hex])
  else if isApproach d_km ac then
    if (st.acked key).isNone && (st.landed key).isNone then
      ({ st with alerts := mapSet st.alerts key ⟨ac⟩ },
       [Event.approachAlert key ac.callsign ac.hex])
    else (st, [])
  else (st, [])

/-- The ACK handler of `src/unnamed/part_001` lines 113-120 (identical to the
first document of `src/unnamed/part_000`, lines 153-159): if the key is in
`alerts`, move its snapshot to `acked` with the ack timestamp and answer
ACK_OK to the requester; otherwise do nothing. -/
def acknowledge (now : ℕ) (key : String) (st : ServerState) :
    ServerState × List Event :=
  match st.alerts key with
  | some r =>
    ({ alerts := mapRemove st.alerts key
       acked := mapSet st.acked key ⟨now, r.snapshot⟩
       landed := st.landed },
     [Event.ackOk key])
  | none => (st, [])

/-- The ACK handler of the newest variant, `src/unnamed/part_000` lines
425-432.  When the key is present in `alerts` the handler reads the snapshot
(line 427, no mutation) and then evaluates `state.alerts.delete(key)` (line
428) — but `key` is an unbound identifier in that scope (every other variant
writes `msg.key` here), so a ReferenceError is raised and swallowed by the
enclosing `catch {}` before any mutation or reply happens.  Net effect in
either branch: state unchanged, no event. -/
def ackLatest (key : String) (st : ServerState) : ServerState × List Event :=
  match st.alerts key with
  | some _ => (st, [])
  | none => (st, [])

/-- Alerting record of the `src/server/index.js` variant:
`state.alerts.set(key, { ack:false, first_seen:first, snapshot:ac })`
(line 124). -/
structure IdxAlertRec where
  ack : Bool
  first_seen : ℕ
  snapshot : Snapshot
  deriving DecidableEq

/-- Acknowledged record of the `src/server/index.js` variant:
`state.acked.set(msg.key, { ack:true, acked_at:Date.now(), snapshot:
prev?.snapshot })` (line 152) — the snapshot may be absent. -/
structure IdxAckedRec where
  ack : Bool
  acked_at : ℕ
  snapshot : Option Snapshot
  deriving DecidableEq

/-- The store of the `src/server/index.js` variant (lines 31-35): maps
`flights`, `alerts`, `acked`; no `landed` map exists in that variant. -/
structure IdxState where
  flights : String → Option Snapshot
  alerts : String → Option IdxAlertRec
  acked : String → Option IdxAckedRec

/-- `isApproach` of the `src/server/index.js` variant (lines 39-55), whose
directional gate compares the track against the bearing toward the airport:
`d_km` stands for the haversine distance (line 40) and `brg` for
`bearingDeg(ac.lat, ac.lon, AIRPORT.lat, AIRPORT.lon)` (line 46). -/
def isApproachIdx (d_km brg : ℚ) (ac : Snapshot) : Bool :=
  if d_km > CFG.RADIUS_KM then false
  else match ac.alt_ft with
  | none => false
  | some alt =>
    if alt > CFG.ALT_MAX_FT then false
    else if (match ac.vs_fpm with | some v => decide (v > 0) | none => false) then false
    else if (match ac.track_deg with
             | some t => decide (angDiff t brg > CFG.BEARING_MAX_DEG)
             | none => false) then false
    else match ac.gs_kts with
      | none => true
      | some g =>
        if g > 20 then
          if (d_km / (g * (1.852 : ℚ))) * 60 > CFG.ETA_MAX_MIN then false else true
        else true

/-- Per-snapshot body of `poll` in the `src/server/index.js` variant (lines
118-127): record the snapshot in `flights`; if approaching and the key is not
acknowledged, (re)insert into `alerts`, preserving `first_seen` from any prior
alert (`state.alerts.get(key)?.first_seen ?? Date.now()`), and broadcast an
APPROACH_ALERT. -/
def observeIdx (now : ℕ) (key : String) (ac : Snapshot) (d_km brg : ℚ)
    (st : IdxState) : IdxState × List Event :=
  let st1 : IdxState := { st with flights := mapSet st.flights key ac }
  if isApproachIdx d_km brg ac then
    if (st1.acked key).isNone then
      let first := match st1.alerts key with | some r => r.first_seen | none => now
      ({ st1 with alerts := mapSet st1.alerts key ⟨false, first, ac⟩ },
       [Event.approachAlert key ac.callsign ac.hex])
    else (st1, [])
  else (st1, [])

/-- A store mutation: one poll-cycle ingestion of one snapshot, or one inbound
acknowledgement handled by either ACK-handler variant. -/
inductive Op where
  | obs (now : ℕ) (key : String) (ac : Snapshot) (d_km : ℚ)
  | ack (now : ℕ) (key : String)
  | ackB (key : String)

/-- State effect of one operation on the three-map store. -/
def applyOp (st : ServerState) : Op → ServerState
  | Op.obs now key ac d => (observe now key ac d st).1
  | Op.ack now key => (acknowledge now key st).1
  | Op.ackB key => (ackLatest key st).1

/-- The store at process start: all three maps empty. -/
def emptyState : ServerState := ⟨fun _ => none, fun _ => none, fun _ => none⟩

/-- Replay a sequence of operations from the empty store. -/
def runOps (ops : List Op) : ServerState := ops.foldl applyOp emptyState

/-- How many of the three maps currently hold the key. -/
def occupancy (st : ServerState) (k : String) : ℕ :=
  (st.alerts k).isSome.toNat + (st.acked k).isSome.toNat + (st.landed k).isSome.toNat

/-- Result of `fetchWithRetry` (`src/unnamed/part_000` lines 189-203) run
against an oracle of per-attempt outcomes: the value returned or error
rethrown (`none` only for a zero attempt budget, where the JS function falls
off the loop), the argument of each `sleep` call, and how many fetch attempts
were made. -/
structure RetryResult (E R : Type) where
  result : Option (Except E R)
  sleeps : List ℕ
  attempts : ℕ

/-- The loop of `fetchWithRetry`, `src/unnamed/part_000` lines 191-202.
`outcome i` is attempt `i`'s result (`.ok` for an ok response; every non-ok
status and every network failure throws at lines 195-196, hence `.error`),
`jit i` is `Math.floor(Math.random() * 400)` for attempt `i`, `delay` the
current backoff, `fuel` the remaining attempts (`tries - i`).  On a failure
that is not the last attempt the code sleeps `delay + jit i` and doubles
`delay`, capping at 6000; on the last it rethrows. -/
def retryGo {E R : Type} (outcome : ℕ → Except E R) (jit : ℕ → ℕ) :
    ℕ → ℕ → ℕ → RetryResult E R
  | _, _, 0 => ⟨none, [], 0⟩
  | i, delay, fuel + 1 =>
    match outcome i with
    | Except.ok r => ⟨some (Except.ok r), [], 1⟩
    | Except.error e =>
      if fuel = 0 then ⟨some (Except.error e), [], 1⟩
      else
        let rest := retryGo outcome jit (i + 1) (min (delay * 2) 6000) fuel
        ⟨rest.result, (delay + jit i) :: rest.sleeps, rest.attempts + 1⟩

/-- `fetchWithRetry(url, options, tries = 4)`: the loop starting at attempt 0
with `delay = 800`. -/
def fetchWithRetry {E R : Type} (outcome : ℕ → Except E R) (jit : ℕ → ℕ)
    (tries : ℕ) : RetryResult E R :=
  retryGo outcome jit 0 800 tries

/-- The value of `delay` before the `k`-th sleep, starting from `d`:
doubled and capped at 6000 after each failure. -/
def delaySeq (d : ℕ) : ℕ → ℕ
  | 0 => d
  | k + 1 => delaySeq (min (d * 2) 6000) k

/-- Module state of the source orchestrator, `src/unnamed/part_000` lines
343-345: `consecutiveOpenSkyEmpty` and `fallbackUntil` (ms epoch). -/
structure OrchState where
  consecutiveOpenSkyEmpty : ℕ
  fallbackUntil : ℕ
  deriving DecidableEq

/-- One `fetchTraffic` call's observable outcome: the batch returned, whether
the primary source (OpenSky) was queried this cycle, and the orchestrator
state afterwards. -/
structure FetchOut (S : Type) where
  batch : List S
  primaryQueried : Bool
  st : OrchState
  deriving DecidableEq

/-- `.catch(() => [])` as applied to both sources in `fetchTraffic`
(lines 352 and 364): a failed fetch degrades to an empty batch. -/
def catchEmpty {S : Type} : Except Unit (List S) → List S
  | Except.ok l => l
  | Except.error _ => []

/-- `const OPEN_SKY_EMPTY_LIMIT = 3` (`src/unnamed/part_000` line 344). -/
def OPEN_SKY_EMPTY_LIMIT : ℕ := 3

/-- `fetchTraffic` (`src/unnamed/part_000` lines 347-366).  `primary` is the
outcome of `fetchOpenSky()` and `fallback` that of `fetchADSBxRapid()` (which
already returns `[]` by itself when `RAPIDAPI_KEY` is unset, line 310); both
are wrapped in `.catch(() => [])`.  Outside a fallback window the primary is
queried: a non-empty batch resets the empty counter and is returned; an empty
one bumps the counter and, on reaching the limit, opens a 2-minute fallback
window (`fallbackUntil = now + 2 * 60 * 1000`).  In all remaining paths the
fallback's batch is returned. -/
def fetchTraffic {S : Type} (now : ℕ) (primary fallback : Except Unit (List S))
    (st : OrchState) : FetchOut S :=
  if now < st.fallbackUntil then
    ⟨catchEmpty fallback, false, st⟩
  else
    let os := catchEmpty primary
    if 0 < os.length then
      ⟨os, true, { st with consecutiveOpenSkyEmpty := 0 }⟩
    else
      let c := st.consecutiveOpenSkyEmpty + 1
      ⟨catchEmpty fallback, true,
        ⟨c, if OPEN_SKY_EMPTY_LIMIT ≤ c then now + 2 * 60 * 1000 else st.fallbackUntil⟩⟩

/-- A run of consecutive `fetchTraffic` cycles, threading the orchestrator
state; each cycle supplies its wall clock and both sources' outcomes. -/
def runTraffic {S : Type} (st : OrchState) :
    List (ℕ × Except Unit (List S) × Except Unit (List S)) → List (FetchOut S)
  | [] => []
  | c :: rest =>
    let o := fetchTraffic c.1 c.2.1 c.2.2 st
    o :: runTraffic o.st rest

/-! ## Concrete states and snapshots used by counterexamples and witnesses -/

/-- An approaching snapshot: hex "A", 3000 ft, descending 500 fpm, speed and
track unknown.  At distance 10 km it passes every `isApproach` gate. -/
def acApproach : Snapshot := ⟨some "A", none, some 3000, none, none, some (-500)⟩

/-- A snapshot satisfying the landing detector (100 ft, 30 kt) that also
passes every `isApproach` gate at 10 km. -/
def acLanded : Snapshot := ⟨some "A", none, some 100, some 30, none, none⟩

/-- A snapshot with altitude known below 200 ft but unknown ground speed. -/
def acLowNoSpeed : Snapshot := ⟨some "A", none, some 150, none, none, none⟩

/-- Store holding key "A" in `alerts` only. -/
def stAlertingA : ServerState :=
  ⟨fun q => if q = "A" then some ⟨acApproach⟩ else none, fun _ => none, fun _ => none⟩

/-- Store holding key "A" in `landed` only (landed at t=50). -/
def stLandedA : ServerState :=
  ⟨fun _ => none, fun _ => none, fun q => if q = "A" then some ⟨50, acLanded⟩ else none⟩

/-! ## Helper lemmas -/

theorem mapSet_self {α : Type} (m : String → Option α) (k : String) (v : α) :
    mapSet m k v k = some v := by
  simp [mapSet]

theorem mapSet_other {α : Type} (m : String → Option α) (k q : String) (v : α)
    (h : q ≠ k) : mapSet m k v q = m q := by
  simp [mapSet, h]

theorem mapRemove_self {α : Type} (m : String → Option α) (k : String) :
    mapRemove m k k = none := by
  simp [mapRemove]

theorem mapRemove_other {α : Type} (m : String → Option α) (k q : String)
    (h : q ≠ k) : mapRemove m k q = m q := by
  simp [mapRemove, h]

/-- C6 — a snapshot with unknown altitude is never classified as approaching,
whatever the distance and all other fields. -/
theorem isApproach_none_alt (d : ℚ) (ac : Snapshot) (h : ac.alt_ft = none) :
    isApproach d ac = false := by
  unfold isApproach
  rw [h]
  split <;> rfl

/-- Witness for `isApproach_none_alt`: a close-in, fast, descending snapshot
with every field populated except altitude is rejected. -/
theorem isApproach_none_alt_w :
    (⟨some "A", some "SIM1", none, some 140, some 120, some (-600)⟩ : Snapshot).alt_ft
        = none ∧
    isApproach 5 ⟨some "A", some "SIM1", none, some 140, some 120, some (-600)⟩ = false :=
  ⟨rfl, isApproach_none_alt 5 ⟨some "A", some "SIM1", none, some 140, some 120, some (-600)⟩ rfl⟩

/-- C1, as stated, is false: with key "A" already in Alerting (and in neither
Acknowledged nor Landed), re-observing the same approaching snapshot makes
`poll` broadcast a second APPROACH_ALERT — the insertion at
`src/unnamed/part_000` lines 385-387 is not guarded by `!state.alerts.has(key)`. -/
theorem observe_realert_cex :
    stAlertingA.alerts "A" = some ⟨acApproach⟩ ∧
    stAlertingA.acked "A" = none ∧
    stAlertingA.landed "A" = none ∧
    landedDetect acApproach = false ∧
    isApproach 10 acApproach = true ∧
    (observe 99 "A" acApproach 10 stAlertingA).2 =
      [Event.approachAlert "A" none (some "A")] :=
  ⟨by decide, rfl, rfl, by decide, by decide, by decide⟩

/-- C1 amended: while a key is absent from Acknowledged and Landed, EVERY
approaching (non-landed) observation — including re-observations while already
Alerting — re-inserts the key into `alerts` (overwriting the record, which in
this variant has no `first_seen_at` field) and emits an APPROACH_ALERT, one
per poll cycle rather than at most one per episode.  In the
`src/server/index.js` variant, whose alert record does track `first_seen`,
re-observation preserves `first_seen` unchanged but still re-emits the
alert. -/
theorem observe_realert_amended :
    (∀ (now : ℕ) (key : String) (ac : Snapshot) (d : ℚ) (st : ServerState),
        st.acked key = none → st.landed key = none →
        landedDetect ac = false → isApproach d ac = true →
        (observe now key ac d st).2 = [Event.approachAlert key ac.callsign ac.hex] ∧
        (observe now key ac d st).1.alerts key = some ⟨ac⟩) ∧
    (∀ (now : ℕ) (key : String) (ac : Snapshot) (d brg : ℚ) (st : IdxState)
        (r : IdxAlertRec),
        st.alerts key = some r → st.acked key = none →
        isApproachIdx d brg ac = true →
        (observeIdx now key ac d brg st).1.alerts key = some ⟨false, r.first_seen, ac⟩ ∧
        (observeIdx now key ac d brg st).2 =
          [Event.approachAlert key ac.callsign ac.hex]) := by
  constructor
  · intro now key ac d st h1 h2 h3 h4
    simp [observe, h1, h2, h3, h4, mapSet_self]
  · intro now key ac d brg st r h1 h2 h3
    simp [observeIdx, h1, h2, h3, mapSet_self]

/-- Witness for `observe_realert_amended`, at the state already holding "A"
in Alerting. -/
theorem observe_realert_amended_w :
    ((observe 99 "A" acApproach 10 stAlertingA).2 =
      [Event.approachAlert "A" none (some "A")] ∧
     (observe 99 "A" acApproach 10 stAlertingA).1.alerts "A" = some ⟨acApproach⟩) ∧
    ((observeIdx 99 "A" acApproach 10 0
        ⟨fun _ => none, fun q => if q = "A" then some ⟨false, 42, acApproach⟩ else none,
         fun _ => none⟩).1.alerts "A" = some ⟨false, 42, acApproach⟩ ∧
     (observeIdx 99 "A" acApproach 10 0
        ⟨fun _ => none, fun q => if q = "A" then some ⟨false, 42, acApproach⟩ else none,
         fun _ => none⟩).2 = [Event.approachAlert "A" none (some "A")]) :=
  ⟨observe_realert_amended.1 99 "A" acApproach 10 stAlertingA rfl rfl (by decide) (by decide),
   observe_realert_amended.2 99 "A" acApproach 10 0 _ ⟨false, 42, acApproach⟩
     (by decide) rfl (by decide)⟩

/-- C3 — the claim describes the intended ACK contract and the handler of
`src/unnamed/part_001` (and of the first document of `src/unnamed/part_000`)
satisfies it, but the newest variant's handler (`src/unnamed/part_000` lines
425-432) does not: `state.alerts.delete(key)` names an unbound identifier
(`msg.key` elsewhere), so the swallowed ReferenceError leaves the key in
Alerting, inserts nothing into Acknowledged and sends no ACK_OK even though
the key IS present in Alerting. -/
theorem ack_handler_eval :
    stAlertingA.alerts "A" = some ⟨acApproach⟩ ∧
    (acknowledge 77 "A" stAlertingA).1.alerts "A" = none ∧
    (acknowledge 77 "A" stAlertingA).1.acked "A" = some ⟨77, acApproach⟩ ∧
    (acknowledge 77 "A" stAlertingA).1.landed "A" = none ∧
    (acknowledge 77 "A" stAlertingA).2 = [Event.ackOk "A"] ∧
    acknowledge 77 "B" stAlertingA = (stAlertingA, []) ∧
    ackLatest "A" stAlertingA = (stAlertingA, []) :=
  ⟨by decide, by decide, by decide, rfl, rfl, rfl, rfl⟩

/-- C4, as stated, is false: with key "A" already in Landed, re-observing a
landed-detected snapshot broadcasts LANDED again — the branch at
`src/unnamed/part_000` lines 376-381 has no `state.landed.has(key)` guard. -/
theorem observe_relanded_cex :
    stLandedA.landed "A" = some ⟨50, acLanded⟩ ∧
    landedDetect acLanded = true ∧
    (observe 99 "A" acLanded 10 stLandedA).2 = [Event.landed "A" none (some "A")] :=
  ⟨by decide, by decide, by decide⟩

/-- C4 amended: every landed-detected observation — including re-observations
of a key already in Landed — overwrites the Landed record with a fresh
timestamp and emits a LANDED event, one per poll cycle rather than exactly
once per transition into Landed. -/
theorem observe_relanded_amended (now : ℕ) (key : String) (ac : Snapshot)
    (d : ℚ) (st : ServerState) (r : LandedRec)
    (_h1 : st.landed key = some r) (h2 : landedDetect ac = true) :
    (observe now key ac d st).2 = [Event.landed key ac.callsign ac.hex] ∧
    (observe now key ac d st).1.landed key = some ⟨now, ac⟩ := by
  simp [observe, h2, mapSet_self]

/-- Witness for `observe_relanded_amended`, at the state already holding "A"
in Landed. -/
theorem observe_relanded_amended_w :
    (observe 99 "A" acLanded 10 stLandedA).2 = [Event.landed "A" none (some "A")] ∧
    (observe 99 "A" acLanded 10 stLandedA).1.landed "A" = some ⟨99, acLanded⟩ :=
  observe_relanded_amended 99 "A" acLanded 10 stLandedA ⟨50, acLanded⟩ (by decide) (by decide)

/-- C5 — a landed-detected snapshot is always routed to Landed: the key is
removed from Alerting and Acknowledged, the LANDED event (and no other) is
emitted, and the whole outcome is independent of the distance fed to the
approach classifier (`continue` at line 381 skips `isApproach` entirely), so
the key never enters Alerting from that snapshot even if it would also
classify as approaching. -/
theorem landing_precedence (now : ℕ) (key : String) (ac : Snapshot) (d : ℚ)
    (st : ServerState) (h : landedDetect ac = true) :
    (observe now key ac d st).1.alerts key = none ∧
    (observe now key ac d st).1.acked key = none ∧
    (observe now key ac d st).1.landed key = some ⟨now, ac⟩ ∧
    (observe now key ac d st).2 = [Event.landed key ac.callsign ac.hex] ∧
    ∀ d' : ℚ, observe now key ac d' st = observe now key ac d st := by
  refine ⟨?_, ?_, ?_, ?_, ?_⟩ <;>
    simp [observe, h, mapSet_self, mapRemove_self]

/-- Witness for `landing_precedence`: `acLanded` satisfies the landing
detector AND the approach classifier at 10 km, yet is routed to Landed. -/
theorem landing_precedence_w :
    landedDetect acLanded = true ∧
    isApproach 10 acLanded = true ∧
    (observe 7 "A" acLanded 10 stAlertingA).1.alerts "A" = none ∧
    (observe 7 "A" acLanded 10 stAlertingA).1.landed "A" = some ⟨7, acLanded⟩ ∧
    (observe 7 "A" acLanded 10 stAlertingA).2 = [Event.landed "A" none (some "A")] := by
  have h := landing_precedence 7 "A" acLanded 10 stAlertingA (by decide)
  exact ⟨by decide,
    by norm_num [isApproach, isAlignedRunway, CFG.RADIUS_KM, CFG.ALT_MAX_FT,
      CFG.ETA_MAX_MIN, acLanded],
    h.1, h.2.2.1, h.2.2.2.1⟩

/-- Every single store mutation preserves "each key occupies at most one of
the three maps": the landed branch evicts the other two maps, the alerting
branch is guarded by absence from `acked` and `landed`, and both ACK-handler
variants at worst move a key from `alerts` to `acked`. -/
theorem occupancy_applyOp (st : ServerState) (op : Op)
    (h : ∀ q, occupancy st q ≤ 1) : ∀ q, occupancy (applyOp st op) q ≤ 1 := by
  intro k
  match op with
  | Op.obs now key ac d =>
    by_cases hl : landedDetect ac
    · by_cases hk : k = key
      · subst hk
        simp [applyOp, observe, hl, occupancy, mapSet, mapRemove]
      · simpa [applyOp, observe, hl, occupancy, mapSet, mapRemove, hk] using h k
    · by_cases ha : isApproach d ac
      · by_cases hg : ((st.acked key).isNone && (st.landed key).isNone) = true
        · rw [Bool.and_eq_true, Option.isNone_iff_eq_none, Option.isNone_iff_eq_none] at hg
          by_cases hk : k = key
          · subst hk
            simp [applyOp, observe, hl, ha, hg.1, hg.2, occupancy, mapSet]
          · simpa [applyOp, observe, hl, ha, hg.1, hg.2, occupancy, mapSet, hk] using h k
        · simpa [applyOp, observe, hl, ha, hg] using h k
      · simpa [applyOp, observe, hl, ha] using h k
  | Op.ack now key =>
    cases hal : st.alerts key with
    | none => simpa [applyOp, acknowledge, hal] using h k
    | some r =>
      by_cases hk : k = key
      · subst hk
        have hh := h k
        cases hland : st.landed k with
        | none => simp [applyOp, acknowledge, hal, hland, occupancy, mapSet, mapRemove]
        | some r2 => simp [occupancy, hal, hland] at hh
      · simpa [applyOp, acknowledge, hal, occupancy, mapSet, mapRemove, hk] using h k
  | Op.ackB key =>
    cases hal : st.alerts key <;> simpa [applyOp, ackLatest, hal] using h k

/-- C2 — state exclusivity: after any sequence of poll-cycle observations and
acknowledgements (through either ACK-handler variant) starting from the empty
store, every key is present in at most one of {alerts, acked, landed}. -/
theorem state_exclusivity (ops : List Op) (k : String) :
    occupancy (runOps ops) k ≤ 1 := by
  suffices hgen : ∀ st : ServerState, (∀ q, occupancy st q ≤ 1) →
      ∀ q, occupancy (ops.foldl applyOp st) q ≤ 1 by
    exact hgen emptyState (fun q => by simp [occupancy, emptyState]) k
  induction ops with
  | nil => intro st h q; simpa using h q
  | cons op rest ih =>
    intro st h q
    simp only [List.foldl_cons]
    exact ih (applyOp st op) (occupancy_applyOp st op h) q

/-- C10 — the landing detector requires BOTH altitude and ground speed known:
a snapshot with only one of them known (below-200-ft altitude with unknown
speed, or below-50-kt speed with unknown altitude) never touches the Landed
map and never emits a LANDED event; it falls through to the approach
classifier, and concretely (150 ft, speed unknown, 10 km, empty store) the
key enters Alerting and an APPROACH_ALERT is emitted. -/
theorem landing_detector_requires_both :
    (∀ (now : ℕ) (key : String) (ac : Snapshot) (d : ℚ) (st : ServerState),
        ((∃ a, ac.alt_ft = some a ∧ a < 200) ∧ ac.gs_kts = none) ∨
          (ac.alt_ft = none ∧ ∃ g, ac.gs_kts = some g ∧ g < 50) →
        (observe now key ac d st).1.landed = st.landed ∧
          ∀ e ∈ (observe now key ac d st).2,
            ∀ (k : String) (c hx : Option String), e ≠ Event.landed k c hx) ∧
    ((observe 0 "A" acLowNoSpeed 10 emptyState).1.alerts "A" = some ⟨acLowNoSpeed⟩ ∧
     (observe 0 "A" acLowNoSpeed 10 emptyState).2 =
       [Event.approachAlert "A" none (some "A")]) := by
  constructor
  · intro now key ac d st hcase
    have hl : landedDetect ac = false := by
      rcases hcase with ⟨⟨a, ha, _⟩, hg⟩ | ⟨ha, g, hg, _⟩ <;> simp [landedDetect, ha, hg]
    by_cases hap : isApproach d ac
    · by_cases hg : ((st.acked key).isNone && (st.landed key).isNone) = true
      · constructor <;> simp [observe, hl, hap, hg]
      · constructor <;> simp [observe, hl, hap, hg]
    · constructor <;> simp [observe, hl, hap]
  · exact ⟨by decide, by decide⟩

/-- Witness for `landing_detector_requires_both`: the 150-ft/unknown-speed
snapshot leaves the Landed map of `stAlertingA` untouched and emits no
LANDED event. -/
theorem landing_detector_requires_both_w :
    (observe 3 "A" acLowNoSpeed 10 stAlertingA).1.landed = stAlertingA.landed ∧
    ∀ e ∈ (observe 3 "A" acLowNoSpeed 10 stAlertingA).2,
      ∀ (k : String) (c hx : Option String), e ≠ Event.landed k c hx :=
  landing_detector_requires_both.1 3 "A" acLowNoSpeed 10 stAlertingA
    (Or.inl ⟨⟨150, rfl, by norm_num⟩, rfl⟩)

/-- C7 — the directional gate: `isAlignedRunway` rejects exactly when the
track is known, the aircraft is within the 30 km close-in radius, and the
angular difference to every configured runway heading exceeds the tolerance;
hence unknown track or distance beyond 30 km never rejects, and a snapshot
with unknown track that qualifies on distance, altitude, vertical rate and
speed is classified as approaching. -/
theorem directional_gate_spec :
    (∀ (track : Option ℚ) (d : ℚ), isAlignedRunway track d = false ↔
        ∃ t, track = some t ∧ d ≤ 30 ∧
          ∀ hdg ∈ RUNWAY_HEADINGS, RUNWAY_TOL < angDiff t hdg) ∧
    (∀ (d : ℚ) (ac : Snapshot), ac.track_deg = none → d ≤ CFG.RADIUS_KM →
        (∃ a, ac.alt_ft = some a ∧ a ≤ CFG.ALT_MAX_FT) →
        (∀ v, ac.vs_fpm = some v → v ≤ 0) →
        (∀ g, ac.gs_kts = some g → 20 < g →
          (d / (g * (1.852 : ℚ))) * 60 ≤ CFG.ETA_MAX_MIN) →
        isApproach d ac = true) := by
  constructor
  · intro track d
    cases track with
    | none => simp [isAlignedRunway]
    | some t =>
      constructor
      · intro hfalse
        by_cases hd : d > 30
        · simp [isAlignedRunway, hd] at hfalse
        · refine ⟨t, rfl, le_of_not_lt hd, ?_⟩
          intro hdg hmem
          simp [isAlignedRunway, hd, List.any_eq_false] at hfalse
          exact hfalse hdg hmem
      · rintro ⟨t', ht', hd30, hall⟩
        obtain rfl : t' = t := by injection ht' with h; exact h.symm
        have hd : ¬ d > 30 := not_lt.mpr hd30
        simp [isAlignedRunway, hd, List.any_eq_false]
        intro hdg hmem
        exact hall hdg hmem
  · intro d ac htrack hd halt hvs hgs
    obtain ⟨a, ha, haa⟩ := halt
    have hvsb : (match ac.vs_fpm with | some v => decide (v > 0) | none => false) = false := by
      cases hv : ac.vs_fpm with
      | none => rfl
      | some v => simpa using not_lt.mpr (hvs v hv)
    have halign : isAlignedRunway ac.track_deg d = true := by
      rw [htrack]; rfl
    simp only [isApproach, ha, hvsb, halign, if_neg (not_lt.mpr hd),
      if_neg (not_lt.mpr haa), Bool.not_true, Bool.false_eq_true, if_false]
    cases hg : ac.gs_kts with
    | none => rfl
    | some g =>
      by_cases h20 : (20 : ℚ) < g
      · simp [h20, if_neg (not_lt.mpr (hgs g hg h20))]
      · simp [h20]

/-- Witness for `directional_gate_spec`: a track-unknown snapshot at 10 km,
3000 ft, 140 kt, descending, is classified as approaching. -/
theorem directional_gate_spec_w :
    isApproach 10 ⟨some "A", none, some 3000, some 140, none, some (-500)⟩ = true :=
  directional_gate_spec.2 10 ⟨some "A", none, some 3000, some 140, none, some (-500)⟩
    rfl (by norm_num [CFG.RADIUS_KM]) ⟨3000, rfl, by norm_num [CFG.ALT_MAX_FT]⟩
    (fun v hv => by injection hv with h; rw [← h]; norm_num)
    (fun g hg h20 => by
      injection hg with h
      rw [← h]
      norm_num [CFG.ETA_MAX_MIN])

/-- Unfolding of one successful attempt of the retry loop. -/
theorem retryGo_ok_eq {E R : Type} (o : ℕ → Except E R) (j : ℕ → ℕ)
    (i d fuel : ℕ) (r : R) (ho : o i = Except.ok r) :
    retryGo o j i d (fuel + 1) = ⟨some (Except.ok r), [], 1⟩ := by
  rw [retryGo, ho]

/-- Unfolding of one failed attempt of the retry loop. -/
theorem retryGo_err_eq {E R : Type} (o : ℕ → Except E R) (j : ℕ → ℕ)
    (i d fuel : ℕ) (e : E) (ho : o i = Except.error e) :
    retryGo o j i d (fuel + 1) =
      if fuel = 0 then ⟨some (Except.error e), [], 1⟩
      else
        ⟨(retryGo o j (i + 1) (min (d * 2) 6000) fuel).result,
         (d + j i) :: (retryGo o j (i + 1) (min (d * 2) 6000) fuel).sleeps,
         (retryGo o j (i + 1) (min (d * 2) 6000) fuel).attempts + 1⟩ := by
  rw [retryGo, ho]

/-- The retry loop makes at most `fuel` fetch attempts. -/
theorem retryGo_attempts_le {E R : Type} (o : ℕ → Except E R) (j : ℕ → ℕ)
    (fuel : ℕ) : ∀ i d, (retryGo o j i d fuel).attempts ≤ fuel := by
  induction fuel with
  | zero => intro i d; rw [retryGo]
  | succ n ih =>
    intro i d
    cases ho : o i with
    | ok r =>
      rw [retryGo_ok_eq o j i d n r ho]
      exact Nat.succ_le_succ (Nat.zero_le n)
    | error e =>
      rw [retryGo_err_eq o j i d n e ho]
      by_cases hn : n = 0
      · rw [if_pos hn]
        exact Nat.succ_le_succ (Nat.zero_le n)
      · rw [if_neg hn]
        exact Nat.succ_le_succ (ih (i + 1) (min (d * 2) 6000))

/-- The `k`-th sleep performed by the retry loop lasts exactly the `k`-th
backoff delay plus that attempt's jitter. -/
theorem retryGo_sleeps {E R : Type} (o : ℕ → Except E R) (j : ℕ → ℕ)
    (fuel : ℕ) : ∀ i d k s, (retryGo o j i d fuel).sleeps.get? k = some s →
      s = delaySeq d k + j (i + k) := by
  induction fuel with
  | zero => intro i d k s h; rw [retryGo] at h; simp at h
  | succ n ih =>
    intro i d k s h
    cases ho : o i with
    | ok r => rw [retryGo_ok_eq o j i d n r ho] at h; simp at h
    | error e =>
      rw [retryGo_err_eq o j i d n e ho] at h
      by_cases hn : n = 0
      · rw [if_pos hn] at h; simp at h
      · rw [if_neg hn] at h
        cases k with
        | zero =>
          simp at h
          show s = d + j i
          omega
        | succ k' =>
          have hrec := ih (i + 1) (min (d * 2) 6000) k' s (by simpa using h)
          show s = delaySeq (min (d * 2) 6000) k' + j (i + (k' + 1))
          rw [show i + (k' + 1) = i + 1 + k' by omega]
          exact hrec

/-- The backoff sequence doubles and is capped at 6000 at every step. -/
theorem delaySeq_succ (d k : ℕ) : delaySeq d (k + 1) = min (delaySeq d k * 2) 6000 := by
  induction k generalizing d with
  | zero => rfl
  | succ k ih =>
    show delaySeq (min (d * 2) 6000) (k + 1) = _
    rw [ih]
    rfl

/-- When every attempt fails, the retry loop surfaces the LAST attempt's
error. -/
theorem retryGo_all_error {E R : Type} (o : ℕ → Except E R) (j : ℕ → ℕ) :
    ∀ (fuel i d : ℕ) (e : E), o (i + fuel) = Except.error e →
      (∀ n, n ≤ fuel → ∃ e', o (i + n) = Except.error e') →
      (retryGo o j i d (fuel + 1)).result = some (Except.error e) := by
  intro fuel
  induction fuel with
  | zero =>
    intro i d e he hall
    simp only [Nat.add_zero] at he
    rw [retryGo_err_eq o j i d 0 e he]
    simp
  | succ m ih =>
    intro i d e he hall
    obtain ⟨e0, he0⟩ := hall 0 (Nat.zero_le _)
    simp only [Nat.add_zero] at he0
    rw [retryGo_err_eq o j i d (m + 1) e0 he0, if_neg (Nat.succ_ne_zero m)]
    exact ih (i + 1) (min (d * 2) 6000) e
      (by rw [show i + 1 + m = i + (m + 1) by omega]; exact he)
      (fun n hn => by
        obtain ⟨e', he'⟩ := hall (n + 1) (by omega)
        exact ⟨e', by rw [show i + 1 + n = i + (n + 1) by omega]; exact he'⟩)

/-- C8 — `fetchWithRetry` with the default budget of 4: it makes at most 4
fetch attempts; the `k`-th inter-attempt sleep is the base delay `delaySeq
800 k` plus that attempt's jitter, where the base delay starts at 800 ms and
doubles each time, capped at 6000 ms, and the jitter
(`Math.floor(Math.random() * 400)`) is below 400 ms; and when every attempt
fails the last error is rethrown to the caller. -/
theorem fetchWithRetry_spec {E R : Type} (o : ℕ → Except E R) (j : ℕ → ℕ)
    (hj : ∀ n, j n < 400) :
    (fetchWithRetry o j 4).attempts ≤ 4 ∧
    (∀ k s, (fetchWithRetry o j 4).sleeps.get? k = some s →
        s = delaySeq 800 k + j k ∧ j k < 400) ∧
    (delaySeq 800 0 = 800 ∧
      ∀ k, delaySeq 800 (k + 1) = min (delaySeq 800 k * 2) 6000) ∧
    (∀ e : E, o 3 = Except.error e → (∀ n, n ≤ 3 → ∃ e', o n = Except.error e') →
        (fetchWithRetry o j 4).result = some (Except.error e)) := by
  refine ⟨retryGo_attempts_le o j 4 0 800, ?_, ⟨rfl, fun k => delaySeq_succ 800 k⟩, ?_⟩
  · intro k s h
    exact ⟨by simpa using retryGo_sleeps o j 4 0 800 k s h, hj k⟩
  · intro e he hall
    exact retryGo_all_error o j 3 0 800 e (by simpa using he)
      (fun n hn => by simpa using hall n hn)

/-- Witness for `fetchWithRetry_spec`: an always-failing source with constant
jitter 7 exhausts the budget and rethrows its error. -/
theorem fetchWithRetry_spec_w :
    (fetchWithRetry (fun _ => (Except.error 9 : Except ℕ ℕ)) (fun _ => 7) 4).attempts ≤ 4 ∧
    (fetchWithRetry (fun _ => (Except.error 9 : Except ℕ ℕ)) (fun _ => 7) 4).result
      = some (Except.error 9) := by
  have h := fetchWithRetry_spec (fun _ => (Except.error 9 : Except ℕ ℕ)) (fun _ => 7)
    (fun n => by norm_num)
  exact ⟨h.1, h.2.2.2 9 rfl (fun n _ => ⟨9, rfl⟩)⟩

/-- C9 — source orchestration: (1) a third consecutive empty-or-failed primary
cycle outside any fallback window opens a 2-minute fallback window and still
serves the fallback's batch; (2) inside the window the primary is not queried,
the fallback's batch is served, and the orchestrator state is untouched;
(3) hence every cycle of a run whose clocks stay inside the window queries
only the fallback; (4) once the window has expired the primary is queried
again; (5) a failed (or unconfigured, `fetchADSBxRapid` returning `[]`)
fallback yields an empty batch, never an error; (6) a non-empty primary batch
resets the empty-run counter; (7) an empty primary below the limit just
increments the counter without opening a window. -/
theorem fetchTraffic_spec {S : Type} :
    (∀ (now : ℕ) (p f : Except Unit (List S)) (st : OrchState),
        st.fallbackUntil ≤ now → st.consecutiveOpenSkyEmpty = 2 → catchEmpty p = [] →
        (fetchTraffic now p f st).st.fallbackUntil = now + 2 * 60 * 1000 ∧
        (fetchTraffic now p f st).st.consecutiveOpenSkyEmpty = 3 ∧
        (fetchTraffic now p f st).batch = catchEmpty f) ∧
    (∀ (now : ℕ) (p f : Except Unit (List S)) (st : OrchState),
        now < st.fallbackUntil →
        fetchTraffic now p f st = ⟨catchEmpty f, false, st⟩) ∧
    (∀ (st : OrchState) (cycles : List (ℕ × Except Unit (List S) × Except Unit (List S))),
        (∀ c ∈ cycles, c.1 < st.fallbackUntil) →
        ∀ o ∈ runTraffic st cycles, o.primaryQueried = false ∧ o.st = st) ∧
    (∀ (now : ℕ) (p f : Except Unit (List S)) (st : OrchState),
        st.fallbackUntil ≤ now → (fetchTraffic now p f st).primaryQueried = true) ∧
    (∀ (now : ℕ) (p : Except Unit (List S)) (st : OrchState),
        now < st.fallbackUntil ∨ catchEmpty p = [] →
        (fetchTraffic now p (Except.error ()) st).batch = []) ∧
    (∀ (now : ℕ) (p f : Except Unit (List S)) (st : OrchState),
        st.fallbackUntil ≤ now → catchEmpty p ≠ [] →
        (fetchTraffic now p f st).batch = catchEmpty p ∧
        (fetchTraffic now p f st).st = ⟨0, st.fallbackUntil⟩) ∧
    (∀ (now : ℕ) (p f : Except Unit (List S)) (st : OrchState),
        st.fallbackUntil ≤ now → catchEmpty p = [] →
        st.consecutiveOpenSkyEmpty + 1 < OPEN_SKY_EMPTY_LIMIT →
        (fetchTraffic now p f st).st =
          ⟨st.consecutiveOpenSkyEmpty + 1, st.fallbackUntil⟩) := by
  refine ⟨?_, ?_, ?_, ?_, ?_, ?_, ?_⟩
  · intro now p f st h1 h2 hp
    have hn : ¬ now < st.fallbackUntil := not_lt.mpr h1
    simp [fetchTraffic, hn, hp, h2, OPEN_SKY_EMPTY_LIMIT]
  · intro now p f st h
    simp [fetchTraffic, h]
  · intro st cycles
    induction cycles with
    | nil => intro h o ho; simp [runTraffic] at ho
    | cons c rest ih =>
      intro h o ho
      have hc := h c (List.mem_cons_self c rest)
      have hstep : fetchTraffic c.1 c.2.1 c.2.2 st =
          ⟨catchEmpty c.2.2, false, st⟩ := by
        simp [fetchTraffic, hc]
      rw [runTraffic, hstep] at ho
      rcases List.mem_cons.mp ho with rfl | hmem
      · exact ⟨rfl, rfl⟩
      · exact ih (fun c' hc' => h c' (List.mem_cons_of_mem c hc')) o hmem
  · intro now p f st h
    have hn : ¬ now < st.fallbackUntil := not_lt.mpr h
    by_cases hl : 0 < (catchEmpty p).length
    · simp [fetchTraffic, hn, hl]
    · simp [fetchTraffic, hn, hl]
  · intro now p st h
    by_cases hw : now < st.fallbackUntil
    · simp [fetchTraffic, hw, catchEmpty]
    · rcases h with h | h
      · exact absurd h hw
      · simp only [fetchTraffic, if_neg hw]
        rw [h]
        simp [catchEmpty]
  · intro now p f st h1 hp
    have hn : ¬ now < st.fallbackUntil := not_lt.mpr h1
    have hl : 0 < (catchEmpty p).length := List.length_pos.mpr hp
    simp [fetchTraffic, hn, hl]
  · intro now p f st h1 hp hlim
    have hn : ¬ now < st.fallbackUntil := not_lt.mpr h1
    have hlt : ¬ OPEN_SKY_EMPTY_LIMIT ≤ st.consecutiveOpenSkyEmpty + 1 := not_le.mpr hlim
    simp [fetchTraffic, hn, hp, hlt]

/-- Witness for `fetchTraffic_spec`: the third empty cycle at t=5 opens a
window until 120005; at t=7 inside a window the primary is skipped; at t=200
past a window ending at 100 it is queried again; both sources failing yields
an empty batch. -/
theorem fetchTraffic_spec_w :
    (fetchTraffic 5 (Except.error ()) (Except.ok [3]) ⟨2, 0⟩ : FetchOut ℕ).st.fallbackUntil
      = 120005 ∧
    (fetchTraffic 7 (Except.ok [9]) (Except.ok [3]) ⟨0, 100⟩ : FetchOut ℕ).primaryQueried
      = false ∧
    (fetchTraffic 200 (Except.ok [9]) (Except.ok [3]) ⟨0, 100⟩ : FetchOut ℕ).primaryQueried
      = true ∧
    (fetchTraffic 200 (Except.error ()) (Except.error ()) ⟨0, 100⟩ : FetchOut ℕ).batch
      = [] := by
  have h := fetchTraffic_spec (S := ℕ)
  refine ⟨?_, ?_, ?_, ?_⟩
  · have := h.1 5 (Except.error ()) (Except.ok [3]) ⟨2, 0⟩ (by norm_num) rfl rfl
    simpa using this.1
  · rw [h.2.1 7 (Except.ok [9]) (Except.ok [3]) ⟨0, 100⟩ (by norm_num)]
  · exact h.2.2.2.1 200 (Except.ok [9]) (Except.ok [3]) ⟨0, 100⟩ (by norm_num)
  · exact h.2.2.2.2.1 200 (Except.error ()) ⟨0, 100⟩ (Or.inr rfl)
